import Mathlib

/-!
Verification of the Javanese calendar converter (`src/javanese-calendar.ts`).

The converter is a pure function from a Gregorian timestamp (milliseconds
since the Unix epoch, as returned by `Date.prototype.getTime`) to a
structured Javanese date.  We embed the constants, the three helper
functions and the conversion function shallowly: JavaScript numbers that
only ever hold integers become `Int`, `Math.floor(x / d)` on integers
becomes `Int.fdiv`, the JavaScript `%` operator (sign of the dividend)
becomes `Int.tmod`, and JavaScript array indexing (which yields
`undefined` out of range) becomes an `Option String` lookup.  The two
`while` loops become well-founded recursions on the decreasing day count.
-/

namespace JavaneseCalendar

/-- The table `DINTEN` of the seven day-of-week names. -/
def DINTEN : List String := ["Ahad", "Senin", "Selasa", "Rabu", "Kamis", "Jumat", "Sabtu"]

/-- The table `PASARAN` of the five market-cycle names. -/
def PASARAN : List String := ["Kliwon", "Legi", "Pahing", "Pon", "Wage"]

/-- The table `SASIH` of month names (declared in the source, unused by `toJavanese`). -/
def SASIH : List String :=
  ["Sura", "Sapar", "Mulud", "Bakda Mulud", "Jumadilawal", "Jumadilakir",
   "Rejeb", "Ruwah", "Pasa", "Sawal", "Dulkangidah", "Besar"]

/-- The table `WULAN` of the twelve month names used for `monthName`. -/
def WULAN : List String :=
  ["Sura", "Sapar", "Mulud", "Bakda Mulud", "Jumadil Awal", "Jumadil Akhir",
   "Rejeb", "Ruwah", "Pasa", "Sawal", "Sela", "Besar"]

/-- The table `WUKU` of the thirty wuku names. -/
def WUKU : List String :=
  ["Sinta", "Landep", "Wukir", "Kurantil", "Tolu", "Gumbreg",
   "Warigalit", "Warigagung", "Julungwangi", "Sungsang", "Galungan",
   "Kuningan", "Langkir", "Mandasiya", "Julungpujut", "Pahang",
   "Kuruwelut", "Marakeh", "Tambir", "Medangkungan", "Maktal",
   "Wuye", "Manahil", "Prangbakat", "Bala", "Wugu", "Wayang",
   "Kulawu", "Dukut", "Watugunung"]

/-- The intermediate `cycle = Math.ceil((year - 1) / 8)` computed inside
`isJavaneseLeapYear`.  For an integer `n`, `Math.ceil(n / 8)` equals the
floor of `(n + 7) / 8`, hence the `Int.fdiv`. -/
def cycleOf (year : Int) : Int := Int.fdiv (year - 1 + 7) 8

/-- The intermediate `yearInCycle = year - (cycle - 1) * 8` computed inside
`isJavaneseLeapYear`. -/
def yearInCycle (year : Int) : Int := year - (cycleOf year - 1) * 8

/-- `isJavaneseLeapYear`: `[2, 5, 8].includes(yearInCycle)`. -/
def isJavaneseLeapYear (year : Int) : Bool :=
  ([2, 5, 8] : List Int).contains (yearInCycle year)

/-- `getDaysInJavaneseMonth`: 30 for month 12 of a leap year, otherwise 30
for odd months and 29 for even months. -/
def getDaysInJavaneseMonth (year month : Int) : Int :=
  if month == 12 && isJavaneseLeapYear year then 30
  else if month % 2 == 1 then 30 else 29

/-- `getTotalDaysInJavaneseYear`: 355 in a leap year, else 354. -/
def getTotalDaysInJavaneseYear (year : Int) : Int :=
  if isJavaneseLeapYear year then 355 else 354

/-- Sanity check for the `Math.ceil` translation: `cycleOf year` is the
least integer `c` with `year - 1 ≤ 8 * c`. -/
theorem cycleOf_spec (year : Int) :
    year - 1 ≤ 8 * cycleOf year ∧ 8 * cycleOf year < year - 1 + 8 := by
  unfold cycleOf
  rw [Int.fdiv_eq_ediv _ (by norm_num)]
  omega

/-- A Javanese year is 354 or 355 days long. -/
theorem getTotalDaysInJavaneseYear_cases (year : Int) :
    getTotalDaysInJavaneseYear year = 354 ∨ getTotalDaysInJavaneseYear year = 355 := by
  unfold getTotalDaysInJavaneseYear
  split
  · right; rfl
  · left; rfl

/-- A Javanese month is 29 or 30 days long. -/
theorem getDaysInJavaneseMonth_cases (year month : Int) :
    getDaysInJavaneseMonth year month = 29 ∨ getDaysInJavaneseMonth year month = 30 := by
  unfold getDaysInJavaneseMonth
  split
  · right; rfl
  · split
    · right; rfl
    · left; rfl

/-- The first `while` loop of `toJavanese`: subtract whole Javanese years
from the elapsed-day count.  Terminates because each iteration removes at
least 354 days from a count that the guard keeps nonnegative. -/
def yearLoop (julianDay year : Int) : Int × Int :=
  if h : julianDay ≥ getTotalDaysInJavaneseYear year then
    yearLoop (julianDay - getTotalDaysInJavaneseYear year) (year + 1)
  else
    (julianDay, year)
termination_by julianDay.toNat
decreasing_by
  have hc := getTotalDaysInJavaneseYear_cases year
  omega

/-- The second `while` loop of `toJavanese`: subtract whole Javanese months
(of the already-resolved year) from the residual day count. -/
def monthLoop (year julianDay month : Int) : Int × Int :=
  if h : julianDay ≥ getDaysInJavaneseMonth year month then
    monthLoop year (julianDay - getDaysInJavaneseMonth year month) (month + 1)
  else
    (julianDay, month)
termination_by julianDay.toNat
decreasing_by
  have hc := getDaysInJavaneseMonth_cases year month
  omega

/-- `new Date('1867-03-04T17:00:00.000Z').getTime()`: the epoch anchor in
milliseconds since the Unix epoch (a negative number, 37558 days minus 17
hours before 1970-01-01T00:00:00Z). -/
def epochMs : Int := -3244950000000

/-- `Date.prototype.getDay` for a runtime whose local time is UTC: the
day-of-week (0 = Sunday .. 6 = Saturday) of the UTC calendar day that
contains the instant `t`.  Day 0 (1970-01-01) was a Thursday, hence `+ 4`;
`%` here is a mathematical modulus into `[0, 7)`, matching the 0..6 range
`getDay` always returns. -/
def getDay (t : Int) : Int := (Int.fdiv t 86400000 + 4) % 7

/-- JavaScript array indexing `table[i]`: the entry when `0 ≤ i < length`,
`undefined` (modelled as `none`) otherwise. -/
def jsIndex (l : List String) (i : Int) : Option String :=
  if 0 ≤ i then l.get? i.toNat else none

/-- The `pasaran` component of a `JavaneseDate`. -/
structure PasaranPart where
  day : Int
  name : Option String
deriving DecidableEq

/-- The `wuku` component of a `JavaneseDate`. -/
structure WukuPart where
  day : Int
  name : Option String
deriving DecidableEq

/-- The result record of `toJavanese`. -/
structure JavaneseDate where
  year : Int
  month : Int
  day : Int
  monthName : Option String
  dayName : Option String
  pasaran : PasaranPart
  wuku : WukuPart
deriving DecidableEq

/-- The initial value of the `julianDay` variable of `toJavanese`:
`Math.floor((date.getTime() - epoch.getTime()) / 86400000)`, the number of
whole days elapsed between the epoch anchor and the input instant. -/
def elapsedDays (t : Int) : Int := Int.fdiv (t - epochMs) 86400000

/-- `toJavanese(date)`: convert an instant `t` (milliseconds since the Unix
epoch) to a Javanese date.  `julianDay` starts as the elapsed-day count;
the two loops then resolve year and month, the residual plus one is the
day-of-month, and the pasaran and wuku cycles are derived from the
day-of-week and the residual respectively. -/
def toJavanese (t : Int) : JavaneseDate :=
  let julianDay0 := elapsedDays t
  let yr := yearLoop julianDay0 1795
  let mr := monthLoop yr.2 yr.1 1
  let julianDay := mr.1
  let year := yr.2
  let month := mr.2
  let day := julianDay + 1
  let dayOfWeek := getDay t
  let pasaranDay := (dayOfWeek + 1) % 5
  let wukuDay := Int.tmod (Int.fdiv (julianDay + 1) 7) 30
  { year := year
    month := month
    day := day
    monthName := jsIndex WULAN (month - 1)
    dayName := jsIndex DINTEN dayOfWeek
    pasaran := { day := pasaranDay, name := jsIndex PASARAN pasaranDay }
    wuku := { day := wukuDay, name := jsIndex WUKU wukuDay } }

/-- The number of days in months `m, m+1, ..., 12` of a year (0 when `m > 12`). -/
def sumDaysFrom (year m : Int) : Int :=
  if 12 < m then 0
  else getDaysInJavaneseMonth year m + sumDaysFrom year (m + 1)
termination_by (13 - m).toNat
decreasing_by omega

/-- Position of a year within the 8-year cycles that tile the year line
starting at year 1 (cycle 1 = years 1..8).  This follows the wording of the
specification, to be compared with the code's intermediate `yearInCycle`. -/
def specPositionInCycle (year : Int) : Int := (year - 1) % 8 + 1

/-! ## Basic lemmas about the helper functions -/

/-- Characterization of the leap-year test: a year is leap exactly when its
residue modulo 8 is 0, 2 or 5 (the code positions 8, 2 and 5 of the cycle). -/
theorem isJavaneseLeapYear_iff (y : Int) :
    isJavaneseLeapYear y = true ↔ (y % 8 = 0 ∨ y % 8 = 2 ∨ y % 8 = 5) := by
  unfold isJavaneseLeapYear yearInCycle cycleOf
  rw [Int.fdiv_eq_ediv _ (by norm_num)]
  simp only [List.contains, List.elem_eq_mem, List.mem_cons, List.mem_singleton,
    List.mem_nil_iff, or_false, decide_eq_true_eq]
  omega

/-- The leap-year test only depends on the year's residue modulo 8. -/
theorem isJavaneseLeapYear_shift (q c : Int) :
    isJavaneseLeapYear (8 * q + c) = isJavaneseLeapYear c := by
  have h1 := isJavaneseLeapYear_iff (8 * q + c)
  have h2 := isJavaneseLeapYear_iff c
  have hm : (8 * q + c) % 8 = c % 8 := by omega
  rw [hm] at h1
  by_cases hp : c % 8 = 0 ∨ c % 8 = 2 ∨ c % 8 = 5
  · rw [h1.mpr hp, h2.mpr hp]
  · have e1 : isJavaneseLeapYear (8 * q + c) ≠ true := fun hh => hp (h1.mp hh)
    have e2 : isJavaneseLeapYear c ≠ true := fun hh => hp (h2.mp hh)
    simp only [Bool.not_eq_true] at e1 e2
    rw [e1, e2]

/-- One step of the year loop when the guard holds. -/
theorem yearLoop_go {julianDay year : Int}
    (h : getTotalDaysInJavaneseYear year ≤ julianDay) :
    yearLoop julianDay year =
      yearLoop (julianDay - getTotalDaysInJavaneseYear year) (year + 1) := by
  rw [yearLoop]
  exact dif_pos h

/-- The year loop stops as soon as the count is below the year length. -/
theorem yearLoop_stop {julianDay year : Int}
    (h : julianDay < getTotalDaysInJavaneseYear year) :
    yearLoop julianDay year = (julianDay, year) := by
  rw [yearLoop]
  exact dif_neg (by omega)

/-- One step of the month loop when the guard holds. -/
theorem monthLoop_go {year julianDay month : Int}
    (h : getDaysInJavaneseMonth year month ≤ julianDay) :
    monthLoop year julianDay month =
      monthLoop year (julianDay - getDaysInJavaneseMonth year month) (month + 1) := by
  rw [monthLoop]
  exact dif_pos h

/-- The month loop stops as soon as the count is below the month length. -/
theorem monthLoop_stop {year julianDay month : Int}
    (h : julianDay < getDaysInJavaneseMonth year month) :
    monthLoop year julianDay month = (julianDay, month) := by
  rw [monthLoop]
  exact dif_neg (by omega)

/-! ## Projections of `toJavanese` -/

/-- The `year` field comes from the year loop. -/
theorem toJavanese_year (t : Int) :
    (toJavanese t).year = (yearLoop (elapsedDays t) 1795).2 := rfl

/-- The `month` field comes from the month loop run on the year loop's output. -/
theorem toJavanese_month (t : Int) :
    (toJavanese t).month =
      (monthLoop (yearLoop (elapsedDays t) 1795).2 (yearLoop (elapsedDays t) 1795).1 1).2 := rfl

/-- The `day` field is the residual day offset plus one. -/
theorem toJavanese_day (t : Int) :
    (toJavanese t).day =
      (monthLoop (yearLoop (elapsedDays t) 1795).2 (yearLoop (elapsedDays t) 1795).1 1).1 + 1 := rfl

/-- The `monthName` field is the `WULAN` entry at `month - 1`. -/
theorem toJavanese_monthName (t : Int) :
    (toJavanese t).monthName = jsIndex WULAN ((toJavanese t).month - 1) := rfl

/-- The `dayName` field is the `DINTEN` entry at the day-of-week. -/
theorem toJavanese_dayName (t : Int) :
    (toJavanese t).dayName = jsIndex DINTEN (getDay t) := rfl

/-- The `pasaran` field depends only on the day-of-week. -/
theorem toJavanese_pasaran (t : Int) :
    (toJavanese t).pasaran =
      { day := (getDay t + 1) % 5, name := jsIndex PASARAN ((getDay t + 1) % 5) } := rfl

/-- The `wuku` field comes from the residual day offset of the month loop. -/
theorem toJavanese_wuku (t : Int) :
    (toJavanese t).wuku =
      { day := Int.tmod
          (Int.fdiv
            ((monthLoop (yearLoop (elapsedDays t) 1795).2 (yearLoop (elapsedDays t) 1795).1 1).1 + 1) 7) 30
        name := jsIndex WUKU (toJavanese t).wuku.day } := rfl

/-! ## Day-of-week lemmas -/

/-- The day-of-week is always in `[0, 7)`. -/
theorem getDay_bounds (t : Int) : 0 ≤ getDay t ∧ getDay t < 7 := by
  unfold getDay
  constructor
  · exact Int.emod_nonneg _ (by norm_num)
  · exact Int.emod_lt_of_pos _ (by norm_num)

/-- Shifting the instant by `k` whole days advances the day-of-week by `k`
modulo 7. -/
theorem getDay_add_days (t k : Int) :
    getDay (t + k * 86400000) = (getDay t + k) % 7 := by
  unfold getDay
  rw [Int.fdiv_eq_ediv _ (by norm_num), Int.fdiv_eq_ediv _ (by norm_num),
    Int.add_mul_ediv_right _ _ (by norm_num : (86400000 : Int) ≠ 0)]
  omega

/-- Shifting the instant by `k` whole days shifts the elapsed-day count by `k`. -/
theorem elapsedDays_add_days (t k : Int) :
    elapsedDays (t + k * 86400000) = elapsedDays t + k := by
  unfold elapsedDays
  rw [Int.fdiv_eq_ediv _ (by norm_num), Int.fdiv_eq_ediv _ (by norm_num)]
  have : t + k * 86400000 - epochMs = (t - epochMs) + k * 86400000 := by ring
  rw [this, Int.add_mul_ediv_right _ _ (by norm_num : (86400000 : Int) ≠ 0)]

/-! ## Year-loop invariants -/

/-- The year loop never decreases the year. -/
theorem yearLoop_year_ge (julianDay year : Int) : year ≤ (yearLoop julianDay year).2 := by
  induction julianDay, year using yearLoop.induct with
  | case1 jd y h ih => rw [yearLoop_go h]; omega
  | case2 jd y h => rw [yearLoop_stop (by omega)]

/-- On a nonnegative day count the year loop ends with a nonnegative
residual that is smaller than the length of the resolved year. -/
theorem yearLoop_inv (julianDay year : Int) (h0 : 0 ≤ julianDay) :
    0 ≤ (yearLoop julianDay year).1 ∧
    (yearLoop julianDay year).1 < getTotalDaysInJavaneseYear (yearLoop julianDay year).2 := by
  induction julianDay, year using yearLoop.induct with
  | case1 jd y h ih =>
    rw [yearLoop_go h]
    exact ih (by omega)
  | case2 jd y h =>
    rw [yearLoop_stop (by omega)]
    exact ⟨h0, show jd < getTotalDaysInJavaneseYear y by omega⟩

/-- The resolved year is monotone in the day count. -/
theorem yearLoop_year_mono (julianDay year : Int) :
    ∀ julianDay', julianDay ≤ julianDay' →
      (yearLoop julianDay year).2 ≤ (yearLoop julianDay' year).2 := by
  induction julianDay, year using yearLoop.induct with
  | case1 jd y h ih =>
    intro jd' hle
    rw [yearLoop_go h, yearLoop_go (show getTotalDaysInJavaneseYear y ≤ jd' by omega)]
    exact ih _ (by omega)
  | case2 jd y h =>
    intro jd' hle
    rw [yearLoop_stop (by omega)]
    exact yearLoop_year_ge jd' y

/-- Adding 355 days (at least one full Javanese year) to a nonnegative day
count strictly increases the resolved year. -/
theorem yearLoop_year_step (julianDay year : Int) (h0 : 0 ≤ julianDay) :
    (yearLoop julianDay year).2 + 1 ≤ (yearLoop (julianDay + 355) year).2 := by
  induction julianDay, year using yearLoop.induct with
  | case1 jd y h ih =>
    rw [yearLoop_go h, yearLoop_go (show getTotalDaysInJavaneseYear y ≤ jd + 355 by omega)]
    have : jd + 355 - getTotalDaysInJavaneseYear y =
        jd - getTotalDaysInJavaneseYear y + 355 := by ring
    rw [this]
    exact ih (by omega)
  | case2 jd y h =>
    have hc := getTotalDaysInJavaneseYear_cases y
    rw [yearLoop_stop (by omega), yearLoop_go (show getTotalDaysInJavaneseYear y ≤ jd + 355 by omega)]
    have := yearLoop_year_ge (jd + 355 - getTotalDaysInJavaneseYear y) (y + 1)
    omega

/-! ## Month-loop invariants -/

/-- Unfolding `sumDaysFrom` below the cutoff. -/
theorem sumDaysFrom_le {year m : Int} (h : m ≤ 12) :
    sumDaysFrom year m = getDaysInJavaneseMonth year m + sumDaysFrom year (m + 1) := by
  rw [sumDaysFrom]
  exact if_neg (by omega)

/-- Unfolding `sumDaysFrom` above the cutoff. -/
theorem sumDaysFrom_gt {year m : Int} (h : 12 < m) : sumDaysFrom year m = 0 := by
  rw [sumDaysFrom]
  exact if_pos h

/-- The twelve months of a year hold exactly as many days as the year. -/
theorem sumDaysFrom_one (year : Int) :
    sumDaysFrom year 1 = getTotalDaysInJavaneseYear year := by
  rw [sumDaysFrom_le (by norm_num), sumDaysFrom_le (by norm_num),
    sumDaysFrom_le (by norm_num), sumDaysFrom_le (by norm_num),
    sumDaysFrom_le (by norm_num), sumDaysFrom_le (by norm_num),
    sumDaysFrom_le (by norm_num), sumDaysFrom_le (by norm_num),
    sumDaysFrom_le (by norm_num), sumDaysFrom_le (by norm_num),
    sumDaysFrom_le (by norm_num), sumDaysFrom_le (by norm_num),
    sumDaysFrom_gt (by norm_num)]
  cases hL : isJavaneseLeapYear year <;>
    simp [getDaysInJavaneseMonth, getTotalDaysInJavaneseYear, hL]

/-- The month loop never decreases the month. -/
theorem monthLoop_month_ge (year julianDay month : Int) :
    month ≤ (monthLoop year julianDay month).2 := by
  induction julianDay, month using monthLoop.induct year with
  | case1 jd m h ih => rw [monthLoop_go h]; omega
  | case2 jd m h => rw [monthLoop_stop (by omega)]

/-- On a nonnegative residual that fits inside months `m..12`, the month
loop ends with a month in `[m, 12]` and a nonnegative residual smaller than
the length of the resolved month. -/
theorem monthLoop_inv (year julianDay month : Int) (h0 : 0 ≤ julianDay)
    (hm : 1 ≤ month) (hm12 : month ≤ 12) (hlt : julianDay < sumDaysFrom year month) :
    0 ≤ (monthLoop year julianDay month).1 ∧
    (monthLoop year julianDay month).1 <
      getDaysInJavaneseMonth year (monthLoop year julianDay month).2 ∧
    month ≤ (monthLoop year julianDay month).2 ∧
    (monthLoop year julianDay month).2 ≤ 12 := by
  induction julianDay, month using monthLoop.induct year with
  | case1 jd m h ih =>
    rw [monthLoop_go h]
    have hm' : m < 12 := by
      rcases Int.lt_or_le m 12 with hlt12 | hge12
      · exact hlt12
      · exfalso
        have hm12' : m = 12 := by omega
        rw [hm12', sumDaysFrom_le (by norm_num), sumDaysFrom_gt (by norm_num)] at hlt
        rw [hm12'] at h
        omega
    have hrest : jd - getDaysInJavaneseMonth year m < sumDaysFrom year (m + 1) := by
      rw [sumDaysFrom_le (by omega)] at hlt
      omega
    have hres := ih (by omega) (by omega) (by omega) hrest
    exact ⟨hres.1, hres.2.1, by omega, hres.2.2.2⟩
  | case2 jd m h =>
    rw [monthLoop_stop (by omega)]
    exact ⟨h0, show jd < getDaysInJavaneseMonth year m by omega, le_refl m, hm12⟩

/-- Flat form of the pasaran day projection. -/
theorem toJavanese_pasaran_day (t : Int) :
    (toJavanese t).pasaran.day = (getDay t + 1) % 5 := rfl

/-- Flat form of the pasaran name projection. -/
theorem toJavanese_pasaran_name (t : Int) :
    (toJavanese t).pasaran.name = jsIndex PASARAN ((toJavanese t).pasaran.day) := rfl

/-- Flat form of the wuku day projection. -/
theorem toJavanese_wuku_day (t : Int) :
    (toJavanese t).wuku.day =
      Int.tmod (Int.fdiv
        ((monthLoop (yearLoop (elapsedDays t) 1795).2 (yearLoop (elapsedDays t) 1795).1 1).1 + 1)
        7) 30 := rfl

/-- Flat form of the wuku name projection. -/
theorem toJavanese_wuku_name (t : Int) :
    (toJavanese t).wuku.name = jsIndex WUKU ((toJavanese t).wuku.day) := rfl

/-- An in-range JavaScript index hits an entry of the table. -/
theorem jsIndex_isSome {l : List String} {i : Int} (h0 : 0 ≤ i)
    (hl : i < (l.length : Int)) : (jsIndex l i).isSome = true := by
  unfold jsIndex
  rw [if_pos h0]
  have hn : i.toNat < l.length := by omega
  rw [List.get?_eq_get hn]
  rfl

/-- On or after the epoch anchor the elapsed-day count is nonnegative. -/
theorem elapsedDays_nonneg {t : Int} (h : epochMs ≤ t) : 0 ≤ elapsedDays t := by
  unfold elapsedDays
  rw [Int.fdiv_eq_ediv _ (by norm_num)]
  omega

/-- Before the epoch anchor the elapsed-day count is negative. -/
theorem elapsedDays_neg {t : Int} (h : t < epochMs) : elapsedDays t < 0 := by
  unfold elapsedDays
  rw [Int.fdiv_eq_ediv _ (by norm_num)]
  omega

/-! ## Claims -/

/-- C1: for the input instant exactly equal to the epoch anchor
1867-03-04T17:00:00.000Z, `toJavanese` returns year 1795, month 1 and day 1. -/
theorem claim_C1 :
    (toJavanese epochMs).year = 1795 ∧ (toJavanese epochMs).month = 1 ∧
    (toJavanese epochMs).day = 1 := by
  have h0 : elapsedDays epochMs = 0 := by decide
  have hy : yearLoop (elapsedDays epochMs) 1795 = (0, 1795) := by
    rw [h0]
    exact yearLoop_stop (by decide)
  have hm : monthLoop (1795 : Int) 0 1 = (0, 1) := monthLoop_stop (by decide)
  refine ⟨?_, ?_, ?_⟩
  · rw [toJavanese_year, hy]
  · rw [toJavanese_month, hy]
    show (monthLoop 1795 0 1).2 = 1
    rw [hm]
  · rw [toJavanese_day, hy]
    show (monthLoop 1795 0 1).1 + 1 = 1
    rw [hm]
    decide

/-- C2: for every Javanese year, the total year length equals the sum of the
twelve month lengths, and it is 355 in a leap year and 354 otherwise. -/
theorem claim_C2 (year : Int) :
    (([1, 2, 3, 4, 5, 6, 7, 8, 9, 10, 11, 12] : List Int).map
        (getDaysInJavaneseMonth year)).sum = getTotalDaysInJavaneseYear year ∧
    getTotalDaysInJavaneseYear year = (if isJavaneseLeapYear year then 355 else 354) := by
  constructor
  · cases hL : isJavaneseLeapYear year <;>
      simp [getDaysInJavaneseMonth, getTotalDaysInJavaneseYear, hL]
  · rfl

/-- C3: for every year at least 1, the leap-year test holds exactly at
positions 2, 5 and 8 of the 8-year cycle tiling from year 1; exactly 3 of
every 8 consecutive years are leap years; and the test has period 8. -/
theorem claim_C3 (year : Int) (h1 : 1 ≤ year) :
    (isJavaneseLeapYear year = true ↔
      specPositionInCycle year ∈ ([2, 5, 8] : List Int)) ∧
    ((List.range 8).filter (fun i => isJavaneseLeapYear (year + (i : Int)))).length = 3 ∧
    isJavaneseLeapYear (year + 8) = isJavaneseLeapYear year := by
  refine ⟨?_, ?_, ?_⟩
  · rw [isJavaneseLeapYear_iff]
    unfold specPositionInCycle
    simp only [List.mem_cons, List.mem_singleton, List.mem_nil_iff, or_false]
    omega
  · obtain ⟨q, r, hr0, hr8, hy⟩ : ∃ q r, 0 ≤ r ∧ r < 8 ∧ year = 8 * q + r :=
      ⟨year / 8, year % 8, by omega, by omega, by omega⟩
    subst hy
    have e : (List.range 8).filter (fun i => isJavaneseLeapYear (8 * q + r + (i : Int))) =
        (List.range 8).filter (fun i => isJavaneseLeapYear (r + (i : Int))) := by
      apply List.filter_congr
      intro i _
      have harr : 8 * q + r + (i : Int) = 8 * q + (r + (i : Int)) := by ring
      rw [harr, isJavaneseLeapYear_shift]
    rw [e]
    interval_cases r <;> decide
  · have harr : year + 8 = 8 * 1 + year := by ring
    rw [harr, isJavaneseLeapYear_shift]

/-- C3 witness: the statement instantiated at year 1. -/
theorem claim_C3_witness :
    (1 : Int) ≤ 1 ∧
    ((isJavaneseLeapYear 1 = true ↔
        specPositionInCycle 1 ∈ ([2, 5, 8] : List Int)) ∧
      ((List.range 8).filter (fun i => isJavaneseLeapYear (1 + (i : Int)))).length = 3 ∧
      isJavaneseLeapYear (1 + 8) = isJavaneseLeapYear 1) :=
  ⟨by norm_num, claim_C3 1 (by norm_num)⟩

/-- C9 counterexample: at year 1 the code's intermediate `yearInCycle` is 9,
outside the claimed range `[1, 8]`. -/
theorem claim_C9_counterexample :
    (1 : Int) ≤ 1 ∧ yearInCycle 1 = 9 ∧ ¬(1 ≤ yearInCycle 1 ∧ yearInCycle 1 ≤ 8) := by
  decide

/-- C9 amended: for every year at least 1, the intermediate
`positionInCycle = year - (cycle - 1) * 8` with `cycle = ceil((year - 1) / 8)`
is an integer in the range `[2, 9]` (it is 9, not 1, when year ≡ 1 mod 8). -/
theorem claim_C9_amended (year : Int) (_h1 : 1 ≤ year) :
    2 ≤ yearInCycle year ∧ yearInCycle year ≤ 9 := by
  unfold yearInCycle cycleOf
  rw [Int.fdiv_eq_ediv _ (by norm_num)]
  omega

/-- C9 witness: the amended statement instantiated at year 2. -/
theorem claim_C9_witness :
    (1 : Int) ≤ 2 ∧ (2 ≤ yearInCycle 2 ∧ yearInCycle 2 ≤ 9) :=
  ⟨by norm_num, claim_C9_amended 2 (by norm_num)⟩

/-- C4 counterexample: on the Tuesday one day after the epoch anchor, adding
5 days changes the pasaran name (Pon becomes Legi), because the code derives
the pasaran from the 7-periodic day-of-week, not from elapsed days. -/
theorem claim_C4_counterexample :
    (toJavanese (epochMs + 86400000 + 5 * 86400000)).pasaran.name ≠
      (toJavanese (epochMs + 86400000)).pasaran.name := by
  decide

/-- C4 amended: the pasaran repeats after 7 days (not 5), and one day
advances the pasaran index by exactly one position modulo 5 precisely when
the day-of-week does not wrap from Saturday to Sunday. -/
theorem claim_C4_amended (t : Int) :
    (toJavanese (t + 7 * 86400000)).pasaran = (toJavanese t).pasaran ∧
    ((toJavanese (t + 86400000)).pasaran.day = ((toJavanese t).pasaran.day + 1) % 5 ↔
      getDay t ≠ 6) := by
  have hb := getDay_bounds t
  constructor
  · have h7 := getDay_add_days t 7
    have e : getDay (t + 7 * 86400000) = getDay t := by
      rw [h7]
      omega
    rw [toJavanese_pasaran, toJavanese_pasaran, e]
  · have h1 : getDay (t + 86400000) = (getDay t + 1) % 7 := by
      have := getDay_add_days t 1
      norm_num at this
      exact this
    rw [toJavanese_pasaran_day, toJavanese_pasaran_day, h1]
    omega

/-- C10: the pasaran output is a function of the Gregorian day-of-week alone,
hence repeats with a 7-day period in calendar time and not with a 5-day one. -/
theorem claim_C10 :
    (∀ t1 t2 : Int, getDay t1 = getDay t2 →
      (toJavanese t1).pasaran = (toJavanese t2).pasaran) ∧
    (∀ t : Int, (toJavanese (t + 7 * 86400000)).pasaran = (toJavanese t).pasaran) ∧
    (toJavanese (epochMs + 86400000 + 5 * 86400000)).pasaran ≠
      (toJavanese (epochMs + 86400000)).pasaran := by
  refine ⟨?_, ?_, ?_⟩
  · intro t1 t2 h
    rw [toJavanese_pasaran, toJavanese_pasaran, h]
  · intro t
    have hb := getDay_bounds t
    have h7 := getDay_add_days t 7
    have e : getDay (t + 7 * 86400000) = getDay t := by
      rw [h7]
      omega
    rw [toJavanese_pasaran, toJavanese_pasaran, e]
  · decide

/-- C5: for every input strictly before the epoch anchor, the elapsed-day
count is negative, both loops return their inputs unchanged, and the result
has day at most 0, year 1795 and month 1 (the conversion is total, so no
error is possible). -/
theorem claim_C5 (t : Int) (h : t < epochMs) :
    elapsedDays t < 0 ∧
    yearLoop (elapsedDays t) 1795 = (elapsedDays t, 1795) ∧
    monthLoop 1795 (elapsedDays t) 1 = (elapsedDays t, 1) ∧
    (toJavanese t).day ≤ 0 ∧ (toJavanese t).year = 1795 ∧ (toJavanese t).month = 1 := by
  have hneg : elapsedDays t < 0 := elapsedDays_neg h
  have h354 : getTotalDaysInJavaneseYear 1795 = 354 := by decide
  have hy : yearLoop (elapsedDays t) 1795 = (elapsedDays t, 1795) :=
    yearLoop_stop (by omega)
  have hdim : getDaysInJavaneseMonth 1795 1 = 30 := by decide
  have hm : monthLoop 1795 (elapsedDays t) 1 = (elapsedDays t, 1) :=
    monthLoop_stop (by omega)
  refine ⟨hneg, hy, hm, ?_, ?_, ?_⟩
  · rw [toJavanese_day, hy]
    show (monthLoop 1795 (elapsedDays t) 1).1 + 1 ≤ 0
    rw [hm]
    omega
  · rw [toJavanese_year, hy]
  · rw [toJavanese_month, hy]
    show (monthLoop 1795 (elapsedDays t) 1).2 = 1
    rw [hm]

/-- C5 witness: the statement instantiated one day before the epoch anchor. -/
theorem claim_C5_witness :
    epochMs - 86400000 < epochMs ∧
    (elapsedDays (epochMs - 86400000) < 0 ∧
      yearLoop (elapsedDays (epochMs - 86400000)) 1795 = (elapsedDays (epochMs - 86400000), 1795) ∧
      monthLoop 1795 (elapsedDays (epochMs - 86400000)) 1 = (elapsedDays (epochMs - 86400000), 1) ∧
      (toJavanese (epochMs - 86400000)).day ≤ 0 ∧
      (toJavanese (epochMs - 86400000)).year = 1795 ∧
      (toJavanese (epochMs - 86400000)).month = 1) :=
  ⟨by decide, claim_C5 _ (by decide)⟩

/-- C6: the wuku index is `floor((offset + 1) / 7) mod 30` computed from the
residual zero-based offset left after year and month resolution (the value
from which `day = offset + 1` is formed), its name is the `WUKU` entry at
that index, and at 400 days past the epoch this differs from the value the
total elapsed-day count would give. -/
theorem claim_C6 (t : Int) :
    (toJavanese t).wuku.day = Int.tmod (Int.fdiv ((toJavanese t).day) 7) 30 ∧
    (toJavanese t).day =
      (monthLoop (yearLoop (elapsedDays t) 1795).2 (yearLoop (elapsedDays t) 1795).1 1).1 + 1 ∧
    (toJavanese t).wuku.name = jsIndex WUKU ((toJavanese t).wuku.day) ∧
    (toJavanese (epochMs + 400 * 86400000)).wuku.day ≠
      Int.tmod (Int.fdiv (elapsedDays (epochMs + 400 * 86400000) + 1) 7) 30 := by
  refine ⟨rfl, rfl, rfl, ?_⟩
  have hT : elapsedDays (epochMs + 400 * 86400000) = 400 := by decide
  have hy : yearLoop (400 : Int) 1795 = (46, 1796) := by
    rw [yearLoop_go (by decide), yearLoop_stop (by decide)]
    decide
  have hm : monthLoop (1796 : Int) 46 1 = (16, 2) := by
    rw [monthLoop_go (by decide), monthLoop_stop (by decide)]
    decide
  rw [toJavanese_wuku_day, hT, hy]
  show Int.tmod (Int.fdiv ((monthLoop 1796 46 1).1 + 1) 7) 30 ≠
    Int.tmod (Int.fdiv (400 + 1) 7) 30
  rw [hm]
  decide

/-- C8 counterexample: two pre-epoch instants 3000 days apart (more than any
reading of one full Javanese year cycle) both resolve to year 1795. -/
theorem claim_C8_counterexample :
    epochMs - 4000 * 86400000 < epochMs - 1000 * 86400000 ∧
    355 * 86400000 < (epochMs - 1000 * 86400000) - (epochMs - 4000 * 86400000) ∧
    (toJavanese (epochMs - 4000 * 86400000)).year =
      (toJavanese (epochMs - 1000 * 86400000)).year := by
  refine ⟨by decide, by decide, ?_⟩
  have ha : elapsedDays (epochMs - 4000 * 86400000) = -4000 := by decide
  have hb : elapsedDays (epochMs - 1000 * 86400000) = -1000 := by decide
  rw [toJavanese_year, toJavanese_year, ha, hb,
    yearLoop_stop (by decide), yearLoop_stop (by decide)]

/-- C8 amended: for instants on or after the epoch anchor, a separation of
more than 355 days (one full Javanese year, at its longest) strictly
increases the resolved Javanese year. -/
theorem claim_C8_amended (t1 t2 : Int) (h0 : epochMs ≤ t1) (_hlt : t1 < t2)
    (hsep : 355 * 86400000 < t2 - t1) :
    (toJavanese t1).year < (toJavanese t2).year := by
  have h1 : 0 ≤ elapsedDays t1 := elapsedDays_nonneg h0
  have h2 : elapsedDays t1 + 355 ≤ elapsedDays t2 := by
    unfold elapsedDays
    rw [Int.fdiv_eq_ediv _ (by norm_num), Int.fdiv_eq_ediv _ (by norm_num)]
    omega
  rw [toJavanese_year, toJavanese_year]
  have hstep := yearLoop_year_step (elapsedDays t1) 1795 h1
  have hmono := yearLoop_year_mono (elapsedDays t1 + 355) 1795 (elapsedDays t2) (by omega)
  omega

/-- C8 witness: the amended statement instantiated at the epoch anchor and
356 days later. -/
theorem claim_C8_witness :
    epochMs ≤ epochMs ∧ epochMs < epochMs + 356 * 86400000 ∧
    355 * 86400000 < (epochMs + 356 * 86400000) - epochMs ∧
    (toJavanese epochMs).year < (toJavanese (epochMs + 356 * 86400000)).year :=
  ⟨le_refl _, by decide, by decide, claim_C8_amended _ _ (le_refl _) (by decide) (by decide)⟩

/-- C10 witness: two instants a week apart share their day-of-week and their
pasaran. -/
theorem claim_C10_witness :
    getDay 0 = getDay 604800000 ∧
    (toJavanese 0).pasaran = (toJavanese 604800000).pasaran :=
  ⟨by decide, claim_C10.1 0 604800000 (by decide)⟩

/-- C7 counterexample: 8 days before the epoch anchor the result has a
day-of-month below 1 and a wuku index of -1 whose table lookup is
out of range (`undefined`), so the claimed invariants do not hold for every
input. -/
theorem claim_C7_counterexample :
    (toJavanese (epochMs - 8 * 86400000)).day < 1 ∧
    (toJavanese (epochMs - 8 * 86400000)).wuku.day = -1 ∧
    (toJavanese (epochMs - 8 * 86400000)).wuku.name = none := by
  have hT : elapsedDays (epochMs - 8 * 86400000) = -8 := by decide
  have hy : yearLoop (-8 : Int) 1795 = (-8, 1795) := yearLoop_stop (by decide)
  have hm : monthLoop (1795 : Int) (-8) 1 = (-8, 1) := monthLoop_stop (by decide)
  refine ⟨?_, ?_, ?_⟩
  · rw [toJavanese_day, hT, hy]
    show (monthLoop 1795 (-8) 1).1 + 1 < 1
    rw [hm]
    decide
  · rw [toJavanese_wuku_day, hT, hy]
    show Int.tmod (Int.fdiv ((monthLoop 1795 (-8) 1).1 + 1) 7) 30 = -1
    rw [hm]
    decide
  · rw [toJavanese_wuku_name, toJavanese_wuku_day, hT, hy]
    show jsIndex WUKU (Int.tmod (Int.fdiv ((monthLoop 1795 (-8) 1).1 + 1) 7) 30) = none
    rw [hm]
    decide

/-- C7 amended: for every input at or after the epoch anchor, the result
satisfies the claimed invariants: month in `[1, 12]`, day in
`[1, daysInMonth(year, month)]`, pasaran index in `[0, 4]`, wuku index in
`[0, 29]`, each name paired with the entry of its table at that index, and
all four table lookups in range. -/
theorem claim_C7_amended (t : Int) (h : epochMs ≤ t) :
    1 ≤ (toJavanese t).month ∧ (toJavanese t).month ≤ 12 ∧
    1 ≤ (toJavanese t).day ∧
    (toJavanese t).day ≤ getDaysInJavaneseMonth (toJavanese t).year (toJavanese t).month ∧
    0 ≤ (toJavanese t).pasaran.day ∧ (toJavanese t).pasaran.day ≤ 4 ∧
    0 ≤ (toJavanese t).wuku.day ∧ (toJavanese t).wuku.day ≤ 29 ∧
    (toJavanese t).pasaran.name = jsIndex PASARAN ((toJavanese t).pasaran.day) ∧
    (toJavanese t).wuku.name = jsIndex WUKU ((toJavanese t).wuku.day) ∧
    (toJavanese t).monthName = jsIndex WULAN ((toJavanese t).month - 1) ∧
    (toJavanese t).dayName = jsIndex DINTEN (getDay t) ∧
    (toJavanese t).monthName.isSome = true ∧
    (toJavanese t).dayName.isSome = true ∧
    (toJavanese t).pasaran.name.isSome = true ∧
    (toJavanese t).wuku.name.isSome = true := by
  have h0 : 0 ≤ elapsedDays t := elapsedDays_nonneg h
  obtain ⟨hy0, hylt⟩ := yearLoop_inv (elapsedDays t) 1795 h0
  have hsum : (yearLoop (elapsedDays t) 1795).1 <
      sumDaysFrom (yearLoop (elapsedDays t) 1795).2 1 := by
    rw [sumDaysFrom_one]
    exact hylt
  obtain ⟨hm0, hmlt, hm1, hm12⟩ :=
    monthLoop_inv (yearLoop (elapsedDays t) 1795).2 (yearLoop (elapsedDays t) 1795).1 1
      hy0 (by norm_num) (by norm_num) hsum
  have hdc := getDaysInJavaneseMonth_cases (yearLoop (elapsedDays t) 1795).2
    (monthLoop (yearLoop (elapsedDays t) 1795).2 (yearLoop (elapsedDays t) 1795).1 1).2
  have hfd : 0 ≤ Int.fdiv
        ((monthLoop (yearLoop (elapsedDays t) 1795).2 (yearLoop (elapsedDays t) 1795).1 1).1 + 1) 7 ∧
      Int.fdiv
        ((monthLoop (yearLoop (elapsedDays t) 1795).2 (yearLoop (elapsedDays t) 1795).1 1).1 + 1) 7 ≤ 4 := by
    rw [Int.fdiv_eq_ediv _ (by norm_num)]
    omega
  have htm : Int.tmod (Int.fdiv
        ((monthLoop (yearLoop (elapsedDays t) 1795).2 (yearLoop (elapsedDays t) 1795).1 1).1 + 1) 7) 30 =
      Int.fdiv
        ((monthLoop (yearLoop (elapsedDays t) 1795).2 (yearLoop (elapsedDays t) 1795).1 1).1 + 1) 7 :=
    Int.tmod_eq_of_lt hfd.1 (by omega)
  have hp0 : 0 ≤ (getDay t + 1) % 5 := Int.emod_nonneg _ (by norm_num)
  have hp5 : (getDay t + 1) % 5 < 5 := Int.emod_lt_of_pos _ (by norm_num)
  have hW12 : ((WULAN.length : Nat) : Int) = 12 := by decide
  have hD7 : ((DINTEN.length : Nat) : Int) = 7 := by decide
  have hP5 : ((PASARAN.length : Nat) : Int) = 5 := by decide
  have hK30 : ((WUKU.length : Nat) : Int) = 30 := by decide
  have hgd := getDay_bounds t
  refine ⟨?_, ?_, ?_, ?_, ?_, ?_, ?_, ?_, rfl, rfl, rfl, rfl, ?_, ?_, ?_, ?_⟩
  · rw [toJavanese_month]
    exact hm1
  · rw [toJavanese_month]
    exact hm12
  · rw [toJavanese_day]
    omega
  · rw [toJavanese_day, toJavanese_year, toJavanese_month]
    omega
  · rw [toJavanese_pasaran_day]
    exact hp0
  · rw [toJavanese_pasaran_day]
    omega
  · rw [toJavanese_wuku_day, htm]
    exact hfd.1
  · rw [toJavanese_wuku_day, htm]
    omega
  · rw [toJavanese_monthName, toJavanese_month]
    exact jsIndex_isSome (by omega) (by omega)
  · rw [toJavanese_dayName]
    exact jsIndex_isSome (by omega) (by omega)
  · rw [toJavanese_pasaran_name, toJavanese_pasaran_day]
    exact jsIndex_isSome (by omega) (by omega)
  · rw [toJavanese_wuku_name, toJavanese_wuku_day, htm]
    exact jsIndex_isSome (by omega) (by omega)

/-- C7 witness: the amended statement instantiated at the epoch anchor. -/
theorem claim_C7_witness :
    epochMs ≤ epochMs ∧
    (1 ≤ (toJavanese epochMs).month ∧ (toJavanese epochMs).month ≤ 12 ∧
      1 ≤ (toJavanese epochMs).day ∧
      (toJavanese epochMs).day ≤
        getDaysInJavaneseMonth (toJavanese epochMs).year (toJavanese epochMs).month ∧
      0 ≤ (toJavanese epochMs).pasaran.day ∧ (toJavanese epochMs).pasaran.day ≤ 4 ∧
      0 ≤ (toJavanese epochMs).wuku.day ∧ (toJavanese epochMs).wuku.day ≤ 29 ∧
      (toJavanese epochMs).pasaran.name = jsIndex PASARAN ((toJavanese epochMs).pasaran.day) ∧
      (toJavanese epochMs).wuku.name = jsIndex WUKU ((toJavanese epochMs).wuku.day) ∧
      (toJavanese epochMs).monthName = jsIndex WULAN ((toJavanese epochMs).month - 1) ∧
      (toJavanese epochMs).dayName = jsIndex DINTEN (getDay epochMs) ∧
      (toJavanese epochMs).monthName.isSome = true ∧
      (toJavanese epochMs).dayName.isSome = true ∧
      (toJavanese epochMs).pasaran.name.isSome = true ∧
      (toJavanese epochMs).wuku.name.isSome = true) :=
  ⟨le_refl _, claim_C7_amended epochMs (le_refl _)⟩

end JavaneseCalendar
